import Mathlib

/-!
# Verification of the debt-manager yearly debt/fine calculator

Shallow embedding of the core logic of `src/app.py` (a community debt-tracking
tool): the four fixed repayment periods (`get_debt_periods`), the yearly
debt/fine calculator (`calculate_yearly_summary`), the row-matching scan used
to locate a payment row for in-place edit, and the payment-row filter applied
when a debtor is deleted.

Modelling conventions:
* Python `date` values become a `Date` structure ordered lexicographically by
  (year, month, day), exactly as Python compares dates.
* Monetary amounts (floats in the source) are modelled as rationals `ℚ`; the
  literals `0.25` and `0.15` become `25/100` and `15/100`.
* Python one-argument `round` (banker's rounding: ties go to the even
  neighbour) is modelled by `pyRound : ℚ → ℤ`.
* `datetime.now().date()`, the calculator's only impure input, is passed in
  explicitly as `now`.
* `pd.to_numeric` applied to the loan, followed by the NaN check, is modelled
  by an `Option ℚ` argument: `none` (missing or non-numeric) is treated as `0`.
-/

set_option maxRecDepth 2048

namespace DebtApp

/-- A calendar date, as Python's `datetime.date`: compared lexicographically
by (year, month, day). -/
structure Date where
  year : Int
  month : Nat
  day : Nat
deriving DecidableEq, Repr

/-- Strict comparison of dates, as Python's `<` on `datetime.date`. -/
def dlt (a b : Date) : Bool :=
  a.year < b.year ||
    (a.year == b.year && (a.month < b.month ||
      (a.month == b.month && a.day < b.day)))

/-- Non-strict comparison of dates, as Python's `<=` on `datetime.date`. -/
def dle (a b : Date) : Bool :=
  dlt a b || a == b

/-- One row of the payment table after loading (`payments_df`): payer name
(`ผู้จ่าย`), parsed payment date (`วันที่จ่าย_dt`), numeric amount (`จำนวน`),
and free-text note (`หมายเหตุ`). -/
structure Payment where
  payer : String
  paid_on : Date
  amount : ℚ
  note : String
deriving DecidableEq, Repr

/-- `get_debt_periods` from `src/app.py` lines 185-193: four periods, period
`i` running from April 5 of year `2025 + i` to March 5 of year `2026 + i`.
(The source's `start_year` parameter is unused there: the contract start is
hard-coded to `date(2025, 4, 5)`.) -/
def get_debt_periods : List (Date × Date) :=
  (List.range 4).map (fun i =>
    (⟨2025 + (i : Int), 4, 5⟩, ⟨2025 + (i : Int) + 1, 3, 5⟩))

/-- Python's one-argument `round` on a rational: nearest integer, ties to the
even neighbour (banker's rounding), as used at `src/app.py` line 225. -/
def pyRound (q : ℚ) : ℤ :=
  let f := Rat.floor q
  if q - f < 1/2 then f
  else if q - f > 1/2 then f + 1
  else if f % 2 = 0 then f else f + 1

/-- The mask of `src/app.py` lines 210-214: a payment is counted in a period
iff its payer equals the debtor's name and its date lies in
`[start_date, end_date]`, both bounds inclusive. -/
def payment_in_period (debtor_name : String) (start_date end_date : Date)
    (p : Payment) : Bool :=
  p.payer == debtor_name && dle start_date p.paid_on && dle p.paid_on end_date

/-- `paid_in_period` of `src/app.py` line 215: the sum of the amounts of the
payments selected by the mask. -/
def paid_in_period (debtor_name : String) (payments : List Payment)
    (start_date end_date : Date) : ℚ :=
  ((payments.filter (payment_in_period debtor_name start_date end_date)).map
    Payment.amount).sum

/-- The fine status recorded in a period's summary row: the three
`fine_status` strings of `src/app.py` lines 227, 229 and 231 (a fine is owed,
fully paid, not yet due). -/
inductive FineStatus
  | hasFine (fine : ℤ)
  | fullyPaid
  | notYetDue
deriving DecidableEq, Repr

/-- One entry of `summary_data` (`src/app.py` lines 233-239), together with
the period's bounds (the source keeps them in `year_label` and in the ambient
loop variables) and the period's fine. -/
structure PeriodSummary where
  period_start : Date
  period_end : Date
  target : ℚ
  paid : ℚ
  shortfall : ℚ
  fine : ℤ
  status : FineStatus
deriving DecidableEq, Repr

/-- One iteration of the loop of `src/app.py` lines 207-239: the period's paid
total, shortfall, fine and status. The source initializes `fine = 0` and
overwrites it only in the past-deadline, positive-shortfall branch; the fine
deadline is the period's end date (`fine_deadline = end_date`, and the test is
`current_date > fine_deadline`). -/
def summarize_period (now : Date) (yearly_target : ℚ) (debtor_name : String)
    (payments : List Payment) (se : Date × Date) : PeriodSummary :=
  let paid := paid_in_period debtor_name payments se.1 se.2
  let shortfall := max 0 (yearly_target - paid)
  let fine : ℤ :=
    if dlt se.2 now then
      (if 0 < shortfall then pyRound (shortfall * (15/100)) else 0)
    else 0
  let status : FineStatus :=
    if dlt se.2 now then
      (if 0 < shortfall then .hasFine fine else .fullyPaid)
    else .notYetDue
  ⟨se.1, se.2, yearly_target, paid, shortfall, fine, status⟩

/-- The four values returned by `calculate_yearly_summary`
(`src/app.py` line 244). -/
structure YearlySummary where
  summary_data : List PeriodSummary
  total_paid_all_years : ℚ
  total_fine_all_years : ℤ
  remaining_overall_debt_with_fine : ℚ
deriving DecidableEq, Repr

/-- `calculate_yearly_summary` of `src/app.py` lines 195-244. The loan is
coerced to a number with missing or non-numeric treated as 0 (lines 196-198);
the per-period yearly target is 25% of the loan (line 200); the per-period
records are produced by `summarize_period`; the loop accumulators
`total_paid_all_years` and `total_fine_all_years` equal the sums of the
per-period fields (only the past-deadline positive-shortfall branch adds a
non-zero fine, and every other branch leaves the period fine at 0); the
remaining overall debt is `max 0 (total_loan - total_paid) + total_fine`
(lines 241-242). -/
def calculate_yearly_summary (debtor_name : String) (total_loan : Option ℚ)
    (payments : List Payment) (now : Date) : YearlySummary :=
  let loan := total_loan.getD 0
  let yearly_target := loan * (25/100)
  let summaries :=
    get_debt_periods.map (summarize_period now yearly_target debtor_name payments)
  let total_paid := (summaries.map PeriodSummary.paid).sum
  let total_fine := (summaries.map PeriodSummary.fine).sum
  ⟨summaries, total_paid, total_fine, max 0 (loan - total_paid) + (total_fine : ℚ)⟩

/-! ## Record matching for payment edit (`src/app.py` lines 545-580) -/

/-- One raw row of the remote `pay` sheet as seen by the edit scan, with the
cell-level preprocessing of the source already applied: `payer`, `date_cell`
and `note` hold the header-normalized text of the payer, date and note cells,
and `amount` holds `pd.to_numeric` of the normalized amount cell (`none` for
NaN, i.e. an unparseable amount). -/
structure SheetRow where
  payer : String
  date_cell : String
  amount : Option ℚ
  note : String
deriving DecidableEq, Repr

/-- The match condition of `src/app.py` lines 569-574: payer, date string,
amount (as a number; a NaN amount never equals a number, as in pandas) and
note must all be equal. -/
def row_matches (payer target_date_str : String) (amount : ℚ) (note : String)
    (g : SheetRow) : Bool :=
  g.payer == payer && g.date_cell == target_date_str &&
    g.amount == some amount && g.note == note

/-- The scan loop of `src/app.py` lines 564-576: walk the data rows
top-to-bottom carrying the 1-based sheet row index (the first data row is
index 2, after the header), and return the index of the first matching row. -/
def scan_rows (payer target_date_str : String) (amount : ℚ) (note : String) :
    List SheetRow → Int → Int
  | [], _ => -1
  | g :: rest, idx =>
      if row_matches payer target_date_str amount note g then idx
      else scan_rows payer target_date_str amount note rest (idx + 1)

/-- `row_index_in_gsheet` of `src/app.py` lines 550-576: `-1` when no remote
row matches (the edit is then rejected with a record-not-found warning,
lines 578-580), otherwise the 1-based sheet index of the first match. -/
def row_index_in_gsheet (payer target_date_str : String) (amount : ℚ)
    (note : String) (rows : List SheetRow) : Int :=
  scan_rows payer target_date_str amount note rows 2

/-- The in-place update of `src/app.py` line 663: overwrite the single row at
the stored 1-based `sheet_row_index` (data row `sheet_row_index - 2`), leaving
every other row unchanged. -/
def update_gsheet_row (rows : List SheetRow) (sheet_row_index : Int)
    (new_row : SheetRow) : List SheetRow :=
  rows.set (sheet_row_index - 2).toNat new_row

/-! ## Debtor deletion cascade (`src/app.py` lines 743-763) -/

/-- Whitespace characters stripped by Python's `str.strip` (the ASCII ones
plus NEL and NBSP; these cover every character occurring in this
development). -/
def is_py_space (c : Char) : Bool :=
  c == Char.ofNat 32 || c == Char.ofNat 9 || c == Char.ofNat 10 ||
    c == Char.ofNat 13 || c == Char.ofNat 11 || c == Char.ofNat 12 ||
    c == Char.ofNat 0x85 || c == Char.ofNat 0xa0

/-- Python's `str.strip` on a character list: drop whitespace from both
ends. -/
def py_strip (s : List Char) : List Char :=
  ((s.dropWhile is_py_space).reverse.dropWhile is_py_space).reverse

/-- `_normalize_gsheet_col_name` of `src/app.py` lines 69-72 on a string
cell: strip, then replace NBSP (U+00A0) by a space, then remove BOM
(U+FEFF). -/
def normalize_cell (s : String) : String :=
  ⟨((py_strip s.data).map
      (fun c => if c = Char.ofNat 0xa0 then Char.ofNat 32 else c)).filter
    (fun c => c ≠ Char.ofNat 0xfeff)⟩

/-- The keep condition of `src/app.py` lines 754-760: a payment row survives
debtor deletion iff its payer cell, normalized, differs from the deleted
name; a row whose payer cell is missing (IndexError) is kept. -/
def keep_row (payer_col_index : Nat) (debtor_to_delete : String)
    (row_data : List String) : Bool :=
  match row_data[payer_col_index]? with
  | some v => normalize_cell v != debtor_to_delete
  | none => true

/-- The payment-row cascade of debtor deletion (`src/app.py` lines 752-763):
`pay_data_to_keep` retains exactly the data rows passing `keep_row`, in
order (the header row is re-emitted separately and is not modelled here). -/
def delete_debtor_payments (payer_col_index : Nat) (debtor_to_delete : String)
    (rows : List (List String)) : List (List String) :=
  rows.filter (keep_row payer_col_index debtor_to_delete)

/-! ## Helper lemmas -/

/-- The four periods, written out. -/
theorem periods_explicit :
    get_debt_periods =
      [(⟨2025, 4, 5⟩, ⟨2026, 3, 5⟩), (⟨2026, 4, 5⟩, ⟨2027, 3, 5⟩),
       (⟨2027, 4, 5⟩, ⟨2028, 3, 5⟩), (⟨2028, 4, 5⟩, ⟨2029, 3, 5⟩)] := by
  decide

theorem rat_floor_eq_int_floor (q : ℚ) : Rat.floor q = Int.floor q := rfl

/-- Membership in the calculator's per-period records. -/
theorem mem_summary_data_iff (debtor_name : String) (total_loan : Option ℚ)
    (payments : List Payment) (now : Date) (r : PeriodSummary) :
    r ∈ (calculate_yearly_summary debtor_name total_loan payments now).summary_data ↔
      ∃ se ∈ get_debt_periods,
        summarize_period now (total_loan.getD 0 * (25/100)) debtor_name payments se = r := by
  simp [calculate_yearly_summary, List.mem_map]

/-! ## Claim theorems -/

/-- Modelled from the spec's words for the period-shape claim: a period
"spans exactly one year" when its end date is its start date shifted by one
calendar year. -/
def spec_spans_one_year (se : Date × Date) : Bool :=
  se.2 == ⟨se.1.year + 1, se.1.month, se.1.day⟩

/-- C5 (counterexample): the first period returned by `get_debt_periods`
starts on April 5, 2025 but ends on March 5, 2026, which is not one year
after its start, so the periods do not span exactly one year. -/
theorem get_debt_periods_first_period_not_one_year :
    get_debt_periods.get? 0 = some (⟨2025, 4, 5⟩, ⟨2026, 3, 5⟩) ∧
    spec_spans_one_year (⟨2025, 4, 5⟩, ⟨2026, 3, 5⟩) = false := by
  decide

/-- C5 (amended): `get_debt_periods` returns exactly four periods anchored to
April 5; period `i` starts on April 5 of year `2025 + i` and ends on March 5
of year `2026 + i`, so consecutive starts are one year apart but no period
itself spans exactly one year (each runs eleven months). -/
theorem get_debt_periods_shape :
    get_debt_periods =
      [(⟨2025, 4, 5⟩, ⟨2026, 3, 5⟩), (⟨2026, 4, 5⟩, ⟨2027, 3, 5⟩),
       (⟨2027, 4, 5⟩, ⟨2028, 3, 5⟩), (⟨2028, 4, 5⟩, ⟨2029, 3, 5⟩)] ∧
    get_debt_periods.all spec_spans_one_year = false := by
  decide

/-- C1: for every period record of `calculate_yearly_summary`: when the
evaluation date is strictly past the period's end and the shortfall is
positive, the fine is `round(shortfall * 15%)` and the period is marked as
fined; when the evaluation date is past the end and the shortfall is zero,
the period is marked fully paid with fine 0; when the evaluation date is not
past the end, the fine is 0 and the period is marked not yet due. The fine
total is the sum of the per-period fines. -/
theorem calculate_yearly_summary_fine_policy (debtor_name : String)
    (total_loan : Option ℚ) (payments : List Payment) (now : Date) :
    (∀ r ∈ (calculate_yearly_summary debtor_name total_loan payments now).summary_data,
      (dlt r.period_end now = true → 0 < r.shortfall →
        r.fine = pyRound (r.shortfall * (15/100)) ∧ r.status = FineStatus.hasFine r.fine) ∧
      (dlt r.period_end now = true → r.shortfall = 0 →
        r.fine = 0 ∧ r.status = FineStatus.fullyPaid) ∧
      (dlt r.period_end now = false →
        r.fine = 0 ∧ r.status = FineStatus.notYetDue)) ∧
    (calculate_yearly_summary debtor_name total_loan payments now).total_fine_all_years =
      ((calculate_yearly_summary debtor_name total_loan payments now).summary_data.map
        PeriodSummary.fine).sum := by
  constructor
  · intro r hr
    rw [mem_summary_data_iff] at hr
    obtain ⟨se, -, rfl⟩ := hr
    simp only [summarize_period]
    refine ⟨?_, ?_, ?_⟩
    · intro h1 h2
      simp only [h1, if_true] at h2 ⊢
      simp only [if_pos h2]
      simp
    · intro h1 h2
      simp only [h1, if_true] at h2 ⊢
      simp only [h2, lt_self_iff_false, if_false]
      simp
    · intro h1
      simp only [h1, Bool.false_eq_true, if_false]
      simp
  · rfl

/-- C1 (witness): the theorem instantiated for a not-yet-due period (loan
missing, no payments, evaluated on Jan 1, 2025, before every period end). -/
theorem calculate_yearly_summary_fine_policy_witness :
    (summarize_period ⟨2025, 1, 1⟩ ((none : Option ℚ).getD 0 * (25/100)) "a" []
        (⟨2025, 4, 5⟩, ⟨2026, 3, 5⟩) ∈
      (calculate_yearly_summary "a" none [] ⟨2025, 1, 1⟩).summary_data) ∧
    (summarize_period ⟨2025, 1, 1⟩ ((none : Option ℚ).getD 0 * (25/100)) "a" []
        (⟨2025, 4, 5⟩, ⟨2026, 3, 5⟩)).fine = 0 ∧
    (summarize_period ⟨2025, 1, 1⟩ ((none : Option ℚ).getD 0 * (25/100)) "a" []
        (⟨2025, 4, 5⟩, ⟨2026, 3, 5⟩)).status = FineStatus.notYetDue := by
  have hmem : summarize_period ⟨2025, 1, 1⟩ ((none : Option ℚ).getD 0 * (25/100)) "a" []
      (⟨2025, 4, 5⟩, ⟨2026, 3, 5⟩) ∈
      (calculate_yearly_summary "a" none [] ⟨2025, 1, 1⟩).summary_data := by
    simp [calculate_yearly_summary, periods_explicit]
  have h := ((calculate_yearly_summary_fine_policy "a" none [] ⟨2025, 1, 1⟩).1 _ hmem).2.2
    (by decide)
  exact ⟨hmem, h⟩

/-- C2: the remaining overall debt returned by `calculate_yearly_summary`
equals `max 0 (loan - total_paid) + total_fines` for every input, and in the
concrete scenario (loan 100,000, no payments, evaluated one day after the
first period's end) period 1's shortfall is 25,000, its fine is 3,750, and
the remaining overall debt is 103,750. -/
theorem calculate_yearly_summary_remaining_debt (debtor_name : String)
    (total_loan : Option ℚ) (payments : List Payment) (now : Date) :
    ((calculate_yearly_summary debtor_name total_loan payments now).remaining_overall_debt_with_fine
        = max 0 (total_loan.getD 0 -
            (calculate_yearly_summary debtor_name total_loan payments now).total_paid_all_years) +
          ((calculate_yearly_summary debtor_name total_loan payments now).total_fine_all_years : ℚ)) ∧
    ((calculate_yearly_summary "somchai" (some 100000) [] ⟨2026, 3, 6⟩).summary_data.map
        PeriodSummary.shortfall).head? = some 25000 ∧
    ((calculate_yearly_summary "somchai" (some 100000) [] ⟨2026, 3, 6⟩).summary_data.map
        PeriodSummary.fine).head? = some 3750 ∧
    (calculate_yearly_summary "somchai" (some 100000) []
        ⟨2026, 3, 6⟩).remaining_overall_debt_with_fine = 103750 := by
  refine ⟨rfl, ?_, ?_, ?_⟩ <;>
  · simp only [calculate_yearly_summary, periods_explicit, summarize_period,
      paid_in_period, payment_in_period, List.map_cons, List.map_nil,
      List.filter_nil, List.sum_cons, List.sum_nil, List.head?_cons,
      Option.getD_some, dlt, dle]
    norm_num [pyRound, rat_floor_eq_int_floor]

/-- C3: for every loan `L ≥ 0` there are four periods, each period's target
is 25% of `L`, and the four targets sum to exactly `L`. -/
theorem calculate_yearly_summary_targets (debtor_name : String) (L : ℚ)
    (hL : 0 ≤ L) (payments : List Payment) (now : Date) :
    (calculate_yearly_summary debtor_name (some L) payments now).summary_data.length = 4 ∧
    (∀ r ∈ (calculate_yearly_summary debtor_name (some L) payments now).summary_data,
      r.target = L * (25/100)) ∧
    ((calculate_yearly_summary debtor_name (some L) payments now).summary_data.map
      PeriodSummary.target).sum = L := by
  refine ⟨?_, ?_, ?_⟩
  · simp [calculate_yearly_summary, periods_explicit]
  · intro r hr
    rw [mem_summary_data_iff] at hr
    obtain ⟨se, -, rfl⟩ := hr
    rfl
  · simp only [calculate_yearly_summary, periods_explicit, summarize_period,
      List.map_cons, List.map_nil, List.sum_cons, List.sum_nil, Option.getD_some]
    ring

/-- C3 (witness): the theorem instantiated at loan 0. -/
theorem calculate_yearly_summary_targets_witness :
    (0 : ℚ) ≤ 0 ∧
    ((calculate_yearly_summary "a" (some 0) [] ⟨2025, 1, 1⟩).summary_data.map
      PeriodSummary.target).sum = 0 :=
  ⟨le_rfl, (calculate_yearly_summary_targets "a" 0 le_rfl [] ⟨2025, 1, 1⟩).2.2⟩

/-- A payment dated strictly before April 5, 2025 or strictly after
March 5, 2029 fails the period mask of any period lying between those
dates. -/
theorem not_in_period_of_out_of_range (debtor_name : String) (s e : Date)
    (p : Payment) (hs : dle ⟨2025, 4, 5⟩ s = true) (he : dle e ⟨2029, 3, 5⟩ = true)
    (h : dlt p.paid_on ⟨2025, 4, 5⟩ = true ∨ dlt ⟨2029, 3, 5⟩ p.paid_on = true) :
    payment_in_period debtor_name s e p = false := by
  obtain ⟨ppayer, pdate, pam, pnote⟩ := p
  have hbc : dle s pdate = false ∨ dle pdate e = false := by
    obtain ⟨py, pm, pd⟩ := pdate
    obtain ⟨sy, sm, sd⟩ := s
    obtain ⟨ey, em, ed⟩ := e
    simp only [dle, dlt, Bool.or_eq_true, Bool.and_eq_true, Bool.or_eq_false_iff,
      Bool.and_eq_false_iff, beq_iff_eq, beq_eq_false_iff_ne, ne_eq,
      decide_eq_true_eq, decide_eq_false_iff_not, Date.mk.injEq] at *
    omega
  rcases hbc with h1 | h1 <;> simp [payment_in_period, h1]

/-- C4: a payment is counted in a period's paid sum exactly when its payer
equals the debtor's name and its date lies in the period's inclusive bounds;
a payment dated before the first period's start (April 5, 2025) or after the
last period's end (March 5, 2029) is counted in no period. -/
theorem paid_in_period_characterization (debtor_name : String)
    (total_loan : Option ℚ) (payments : List Payment) (now : Date) :
    (∀ r ∈ (calculate_yearly_summary debtor_name total_loan payments now).summary_data,
      r.paid = ((payments.filter
          (payment_in_period debtor_name r.period_start r.period_end)).map
        Payment.amount).sum ∧
      (∀ p : Payment,
        payment_in_period debtor_name r.period_start r.period_end p = true ↔
          (p.payer = debtor_name ∧ dle r.period_start p.paid_on = true ∧
            dle p.paid_on r.period_end = true))) ∧
    (∀ p : Payment,
      (dlt p.paid_on ⟨2025, 4, 5⟩ = true ∨ dlt ⟨2029, 3, 5⟩ p.paid_on = true) →
      ∀ r ∈ (calculate_yearly_summary debtor_name total_loan payments now).summary_data,
        payment_in_period debtor_name r.period_start r.period_end p = false) := by
  constructor
  · intro r hr
    rw [mem_summary_data_iff] at hr
    obtain ⟨se, -, rfl⟩ := hr
    refine ⟨rfl, ?_⟩
    intro p
    simp [summarize_period, payment_in_period, Bool.and_eq_true, and_assoc]
  · intro p hp r hr
    rw [mem_summary_data_iff] at hr
    obtain ⟨se, hse, rfl⟩ := hr
    rw [periods_explicit] at hse
    simp only [summarize_period]
    simp only [List.mem_cons, List.not_mem_nil, or_false] at hse
    rcases hse with rfl | rfl | rfl | rfl <;>
      exact not_in_period_of_out_of_range _ _ _ _ (by decide) (by decide) hp

/-- C4 (witness): the theorem instantiated at a payment dated Jan 1, 2025,
before the first period's start. -/
theorem paid_in_period_characterization_witness :
    (dlt ⟨2025, 1, 1⟩ ⟨2025, 4, 5⟩ = true ∨ dlt ⟨2029, 3, 5⟩ ⟨2025, 1, 1⟩ = true) ∧
    (summarize_period ⟨2025, 2, 1⟩ ((none : Option ℚ).getD 0 * (25/100)) "a"
        [⟨"a", ⟨2025, 1, 1⟩, 1, ""⟩] (⟨2025, 4, 5⟩, ⟨2026, 3, 5⟩) ∈
      (calculate_yearly_summary "a" none [⟨"a", ⟨2025, 1, 1⟩, 1, ""⟩]
        ⟨2025, 2, 1⟩).summary_data) ∧
    payment_in_period "a"
      (summarize_period ⟨2025, 2, 1⟩ ((none : Option ℚ).getD 0 * (25/100)) "a"
        [⟨"a", ⟨2025, 1, 1⟩, 1, ""⟩] (⟨2025, 4, 5⟩, ⟨2026, 3, 5⟩)).period_start
      (summarize_period ⟨2025, 2, 1⟩ ((none : Option ℚ).getD 0 * (25/100)) "a"
        [⟨"a", ⟨2025, 1, 1⟩, 1, ""⟩] (⟨2025, 4, 5⟩, ⟨2026, 3, 5⟩)).period_end
      ⟨"a", ⟨2025, 1, 1⟩, 1, ""⟩ = false := by
  have hdates : dlt ⟨2025, 1, 1⟩ ⟨2025, 4, 5⟩ = true ∨
      dlt ⟨2029, 3, 5⟩ ⟨2025, 1, 1⟩ = true := by decide
  have hmem : summarize_period ⟨2025, 2, 1⟩ ((none : Option ℚ).getD 0 * (25/100)) "a"
      [⟨"a", ⟨2025, 1, 1⟩, 1, ""⟩] (⟨2025, 4, 5⟩, ⟨2026, 3, 5⟩) ∈
      (calculate_yearly_summary "a" none [⟨"a", ⟨2025, 1, 1⟩, 1, ""⟩]
        ⟨2025, 2, 1⟩).summary_data := by
    simp [calculate_yearly_summary, periods_explicit]
  exact ⟨hdates, hmem,
    (paid_in_period_characterization "a" none [⟨"a", ⟨2025, 1, 1⟩, 1, ""⟩]
      ⟨2025, 2, 1⟩).2 ⟨"a", ⟨2025, 1, 1⟩, 1, ""⟩ hdates _ hmem⟩

/-- C6 (counterexample): for the negative loan −100 the first period's target
computed by `calculate_yearly_summary` is −25, which is not zero, although
−100 ≤ 0. -/
theorem negative_loan_nonzero_target :
    ((calculate_yearly_summary "a" (some (-100)) [] ⟨2026, 3, 6⟩).summary_data.map
      PeriodSummary.target).head? = some (-25) ∧
    ((-100 : ℚ) ≤ 0) ∧ ¬((-25 : ℚ) = 0) := by
  refine ⟨?_, by norm_num, by norm_num⟩
  simp only [calculate_yearly_summary, periods_explicit, summarize_period,
    List.map_cons, List.head?_cons, Option.getD_some, Option.some.injEq]
  norm_num

/-- C6 (amended): for any loan coerced to a value `≤ 0` (a missing or
non-numeric loan is coerced to 0) and nonnegative payment amounts, every
period's shortfall and fine are zero, and every period's target equals 25% of
the coerced loan — which is zero exactly when the coerced loan is zero (a
negative loan gives a negative target, not zero). -/
theorem nonpositive_loan_zero_fines (debtor_name : String)
    (total_loan : Option ℚ) (payments : List Payment) (now : Date)
    (hL : total_loan.getD 0 ≤ 0) (hps : ∀ p ∈ payments, 0 ≤ p.amount) :
    ∀ r ∈ (calculate_yearly_summary debtor_name total_loan payments now).summary_data,
      r.target = total_loan.getD 0 * (25/100) ∧ r.shortfall = 0 ∧ r.fine = 0 ∧
      (total_loan.getD 0 = 0 → r.target = 0) := by
  intro r hr
  rw [mem_summary_data_iff] at hr
  obtain ⟨se, -, rfl⟩ := hr
  have hpaid : 0 ≤ paid_in_period debtor_name payments se.1 se.2 := by
    refine List.sum_nonneg ?_
    intro x hx
    simp only [List.mem_map] at hx
    obtain ⟨p, hp, rfl⟩ := hx
    exact hps p (List.mem_of_mem_filter hp)
  have htarget : total_loan.getD 0 * (25/100) ≤ 0 := by linarith
  have hshort :
      max 0 (total_loan.getD 0 * (25/100) -
        paid_in_period debtor_name payments se.1 se.2) = 0 :=
    max_eq_left (by linarith)
  refine ⟨rfl, ?_, ?_, ?_⟩
  · simpa [summarize_period] using hshort
  · simp [summarize_period, hshort]
  · intro h0
    simp [summarize_period, h0]

/-- C6 (witness): the theorem instantiated at loan 0 with no payments, for
the first period. -/
theorem nonpositive_loan_zero_fines_witness :
    ((some (0 : ℚ)).getD 0 ≤ 0) ∧
    (summarize_period ⟨2026, 3, 6⟩ ((some (0 : ℚ)).getD 0 * (25/100)) "a" []
        (⟨2025, 4, 5⟩, ⟨2026, 3, 5⟩) ∈
      (calculate_yearly_summary "a" (some 0) [] ⟨2026, 3, 6⟩).summary_data) ∧
    (summarize_period ⟨2026, 3, 6⟩ ((some (0 : ℚ)).getD 0 * (25/100)) "a" []
        (⟨2025, 4, 5⟩, ⟨2026, 3, 5⟩)).shortfall = 0 ∧
    (summarize_period ⟨2026, 3, 6⟩ ((some (0 : ℚ)).getD 0 * (25/100)) "a" []
        (⟨2025, 4, 5⟩, ⟨2026, 3, 5⟩)).fine = 0 := by
  have hmem : summarize_period ⟨2026, 3, 6⟩ ((some (0 : ℚ)).getD 0 * (25/100)) "a" []
      (⟨2025, 4, 5⟩, ⟨2026, 3, 5⟩) ∈
      (calculate_yearly_summary "a" (some 0) [] ⟨2026, 3, 6⟩).summary_data := by
    simp [calculate_yearly_summary, periods_explicit]
  have h := nonpositive_loan_zero_fines "a" (some 0) [] ⟨2026, 3, 6⟩ le_rfl
    (by simp) _ hmem
  exact ⟨le_rfl, hmem, h.2.1, h.2.2.1⟩

/-- C9: past-due positive shortfalls are fined with Python's banker's
rounding `pyRound`; at the tie `k + 1/2` the result is the even neighbour,
so a shortfall of 30 (loan 120, nothing paid) gives `round(4.5) = 4`, not
5. -/
theorem fine_uses_bankers_rounding (debtor_name : String)
    (total_loan : Option ℚ) (payments : List Payment) (now : Date) :
    (∀ r ∈ (calculate_yearly_summary debtor_name total_loan payments now).summary_data,
      dlt r.period_end now = true → 0 < r.shortfall →
        r.fine = pyRound (r.shortfall * (15/100))) ∧
    pyRound ((30 : ℚ) * (15/100)) = 4 ∧ ¬ pyRound ((30 : ℚ) * (15/100)) = 5 ∧
    ((calculate_yearly_summary "a" (some 120) [] ⟨2026, 3, 6⟩).summary_data.map
      PeriodSummary.fine).head? = some 4 ∧
    (∀ k : ℤ, pyRound ((k : ℚ) + 1/2) = if k % 2 = 0 then k else k + 1) := by
  have hfloor92 : Rat.floor ((9 : ℚ)/2) = 4 := by with_unfolding_all decide
  have h45 : (30 : ℚ) * (15/100) = 9/2 := by norm_num
  have hpy : pyRound ((30 : ℚ) * (15/100)) = 4 := by
    simp only [pyRound, h45, hfloor92]
    norm_num
  refine ⟨?_, hpy, by rw [hpy]; norm_num, ?_, ?_⟩
  · intro r hr h1 h2
    rw [mem_summary_data_iff] at hr
    obtain ⟨se, -, rfl⟩ := hr
    simp only [summarize_period] at h1 h2 ⊢
    simp only [h1, if_true] at h2 ⊢
    simp only [if_pos h2]
  · simp only [calculate_yearly_summary, periods_explicit, summarize_period,
      paid_in_period, payment_in_period, List.map_cons, List.map_nil,
      List.filter_nil, List.sum_cons, List.sum_nil, List.head?_cons,
      Option.getD_some, dlt, dle, Option.some.injEq]
    norm_num [pyRound, hfloor92]
  · intro k
    have hfloor : Rat.floor ((k : ℚ) + 1/2) = k := by
      rw [rat_floor_eq_int_floor, Int.floor_int_add]
      have : ⌊(1/2 : ℚ)⌋ = 0 := by
        rw [Int.floor_eq_iff] <;> norm_num
      omega
    simp only [pyRound, hfloor]
    have hfrac : (k : ℚ) + 1/2 - k = 1/2 := by ring
    rw [hfrac]
    norm_num

/-- C9 (witness): the general clause instantiated for period 1 with loan 120,
no payments, evaluated one day past the period end. -/
theorem fine_uses_bankers_rounding_witness :
    (dlt (summarize_period ⟨2026, 3, 6⟩ ((some (120 : ℚ)).getD 0 * (25/100)) "a" []
        (⟨2025, 4, 5⟩, ⟨2026, 3, 5⟩)).period_end ⟨2026, 3, 6⟩ = true) ∧
    (0 < (summarize_period ⟨2026, 3, 6⟩ ((some (120 : ℚ)).getD 0 * (25/100)) "a" []
        (⟨2025, 4, 5⟩, ⟨2026, 3, 5⟩)).shortfall) ∧
    (summarize_period ⟨2026, 3, 6⟩ ((some (120 : ℚ)).getD 0 * (25/100)) "a" []
        (⟨2025, 4, 5⟩, ⟨2026, 3, 5⟩)).fine =
      pyRound ((summarize_period ⟨2026, 3, 6⟩ ((some (120 : ℚ)).getD 0 * (25/100)) "a" []
        (⟨2025, 4, 5⟩, ⟨2026, 3, 5⟩)).shortfall * (15/100)) := by
  have hmem : summarize_period ⟨2026, 3, 6⟩ ((some (120 : ℚ)).getD 0 * (25/100)) "a" []
      (⟨2025, 4, 5⟩, ⟨2026, 3, 5⟩) ∈
      (calculate_yearly_summary "a" (some 120) [] ⟨2026, 3, 6⟩).summary_data := by
    simp [calculate_yearly_summary, periods_explicit]
  have hpast : dlt (summarize_period ⟨2026, 3, 6⟩ ((some (120 : ℚ)).getD 0 * (25/100)) "a" []
      (⟨2025, 4, 5⟩, ⟨2026, 3, 5⟩)).period_end ⟨2026, 3, 6⟩ = true := by decide
  have hshort : 0 < (summarize_period ⟨2026, 3, 6⟩ ((some (120 : ℚ)).getD 0 * (25/100)) "a" []
      (⟨2025, 4, 5⟩, ⟨2026, 3, 5⟩)).shortfall := by
    simp [summarize_period, paid_in_period]
  exact ⟨hpast, hshort,
    (fine_uses_bankers_rounding "a" (some 120) [] ⟨2026, 3, 6⟩).1 _ hmem hpast hshort⟩

/-- C10: the aggregate total paid is the sum of the per-period paid amounts,
and a payment whose date lies in none of the four periods changes nothing in
the calculator's output (in particular it does not reduce the remaining
overall debt). -/
theorem out_of_period_payment_ignored (debtor_name : String)
    (total_loan : Option ℚ) (payments : List Payment) (now : Date) (p : Payment)
    (hp : ∀ se ∈ get_debt_periods,
      ¬(dle se.1 p.paid_on = true ∧ dle p.paid_on se.2 = true)) :
    calculate_yearly_summary debtor_name total_loan (p :: payments) now =
      calculate_yearly_summary debtor_name total_loan payments now ∧
    (calculate_yearly_summary debtor_name total_loan payments now).total_paid_all_years =
      ((calculate_yearly_summary debtor_name total_loan payments now).summary_data.map
        PeriodSummary.paid).sum := by
  refine ⟨?_, rfl⟩
  have hmap : ∀ t : ℚ,
      get_debt_periods.map (summarize_period now t debtor_name (p :: payments)) =
        get_debt_periods.map (summarize_period now t debtor_name payments) := by
    intro t
    refine List.map_congr_left ?_
    intro se hse
    have hfalse : payment_in_period debtor_name se.1 se.2 p = false := by
      cases hb : dle se.1 p.paid_on with
      | false => simp [payment_in_period, hb]
      | true =>
        cases hc : dle p.paid_on se.2 with
        | false => simp [payment_in_period, hc]
        | true => exact absurd ⟨hb, hc⟩ (hp se hse)
    simp [summarize_period, paid_in_period, List.filter_cons, hfalse]
  simp only [calculate_yearly_summary, hmap]

/-- C10 (witness): the theorem instantiated at a payment dated Jan 1, 2025,
outside every period. -/
theorem out_of_period_payment_ignored_witness :
    (∀ se ∈ get_debt_periods,
      ¬(dle se.1 (⟨2025, 1, 1⟩ : Date) = true ∧
        dle (⟨2025, 1, 1⟩ : Date) se.2 = true)) ∧
    calculate_yearly_summary "a" (some 100) [⟨"a", ⟨2025, 1, 1⟩, 5, ""⟩] ⟨2026, 3, 6⟩ =
      calculate_yearly_summary "a" (some 100) [] ⟨2026, 3, 6⟩ := by
  have hdates : ∀ se ∈ get_debt_periods,
      ¬(dle se.1 (⟨2025, 1, 1⟩ : Date) = true ∧
        dle (⟨2025, 1, 1⟩ : Date) se.2 = true) := by decide
  exact ⟨hdates,
    (out_of_period_payment_ignored "a" (some 100) [] ⟨2026, 3, 6⟩
      ⟨"a", ⟨2025, 1, 1⟩, 5, ""⟩ hdates).1⟩

/-- Characterization of the scan loop: either no row matches and the result
is `-1`, or the result is `k + i` where `i` is the position of the first
matching row. -/
theorem scan_rows_spec (payer target_date_str : String) (amount : ℚ)
    (note : String) (rows : List SheetRow) : ∀ k : Int,
    (scan_rows payer target_date_str amount note rows k = -1 ∧
      ∀ g ∈ rows, row_matches payer target_date_str amount note g = false) ∨
    (∃ i : Nat, ∃ g, rows[i]? = some g ∧
      scan_rows payer target_date_str amount note rows k = k + i ∧
      row_matches payer target_date_str amount note g = true ∧
      ∀ j g2, j < i → rows[j]? = some g2 →
        row_matches payer target_date_str amount note g2 = false) := by
  induction rows with
  | nil => intro k; left; exact ⟨rfl, by simp⟩
  | cons g rest ih =>
    intro k
    by_cases hg : row_matches payer target_date_str amount note g = true
    · right
      refine ⟨0, g, by simp, ?_, hg, ?_⟩
      · simp [scan_rows, hg]
      · intro j g2 hj
        omega
    · have hg2 : row_matches payer target_date_str amount note g = false :=
        Bool.not_eq_true _ ▸ Bool.of_not_eq_true hg
      rcases ih (k + 1) with ⟨hres, hall⟩ | ⟨i, gm, hget, hres, hmatch, hfirst⟩
      · left
        constructor
        · simp [scan_rows, hg2, hres]
        · intro x hx
          rcases List.mem_cons.mp hx with rfl | hx
          · exact hg2
          · exact hall x hx
      · right
        refine ⟨i + 1, gm, by simpa using hget, ?_, hmatch, ?_⟩
        · simp only [scan_rows, hg2, Bool.false_eq_true, if_false, hres]
          push_cast
          ring
        · intro j g3 hj hget3
          cases j with
          | zero =>
            simp only [List.getElem?_cons_zero, Option.some.injEq] at hget3
            exact hget3 ▸ hg2
          | succ j =>
            exact hfirst j g3 (by omega) (by simpa using hget3)

/-- C7: the edit scan selects the first remote row whose payer, date string,
amount (as a number) and note all match; when no row matches, the result is
`-1` (the edit is rejected as record-not-found); the selected row's amount is
the edited payment's amount, so for `B ≠ A` the scan for amount `A` never
selects a row whose amount is `B`, and the single-row update leaves every
other row unchanged. -/
theorem row_matching_first_exact_match (payer target_date_str : String)
    (amount : ℚ) (note : String) (rows : List SheetRow) :
    (∀ i : Nat,
      row_index_in_gsheet payer target_date_str amount note rows = (i : Int) + 2 →
      ∃ g, rows[i]? = some g ∧
        row_matches payer target_date_str amount note g = true ∧
        g.amount = some amount ∧
        ∀ j g2, j < i → rows[j]? = some g2 →
          row_matches payer target_date_str amount note g2 = false) ∧
    ((∀ g ∈ rows, row_matches payer target_date_str amount note g = false) →
      row_index_in_gsheet payer target_date_str amount note rows = -1) ∧
    (∀ (i : Nat) (B : ℚ), B ≠ amount →
      row_index_in_gsheet payer target_date_str amount note rows = (i : Int) + 2 →
      ∀ g, rows[i]? = some g → g.amount ≠ some B) ∧
    (∀ (i : Nat) (new_row : SheetRow) (j : Nat), j ≠ i →
      (update_gsheet_row rows ((i : Int) + 2) new_row)[j]? = rows[j]?) := by
  have hamount : ∀ g, row_matches payer target_date_str amount note g = true →
      g.amount = some amount := by
    intro g hg
    simp only [row_matches, Bool.and_eq_true, beq_iff_eq] at hg
    exact hg.1.2
  refine ⟨?_, ?_, ?_, ?_⟩
  · intro i hi
    rcases scan_rows_spec payer target_date_str amount note rows 2 with
      ⟨hres, -⟩ | ⟨i0, g, hget, hres, hmatch, hfirst⟩
    · rw [row_index_in_gsheet] at hi
      omega
    · rw [row_index_in_gsheet] at hi
      have hii : i0 = i := by omega
      subst hii
      exact ⟨g, hget, hmatch, hamount g hmatch, hfirst⟩
  · intro hall
    rcases scan_rows_spec payer target_date_str amount note rows 2 with
      ⟨hres, -⟩ | ⟨i0, g, hget, hres, hmatch, -⟩
    · exact hres
    · have hmem : g ∈ rows := by
        have := List.getElem?_eq_some_iff.mp hget
        obtain ⟨h, rfl⟩ := this
        exact List.getElem_mem h
      rw [hall g hmem] at hmatch
      exact absurd hmatch (by simp)
  · intro i B hB hi g hget
    rcases scan_rows_spec payer target_date_str amount note rows 2 with
      ⟨hres, -⟩ | ⟨i0, g0, hget0, hres, hmatch, -⟩
    · rw [row_index_in_gsheet] at hi
      omega
    · rw [row_index_in_gsheet] at hi
      have hii : i0 = i := by omega
      subst hii
      rw [hget] at hget0
      have hgg : g = g0 := by simpa using hget0
      subst hgg
      rw [hamount g hmatch]
      simp [Ne.symm hB]
  · intro i new_row j hj
    have hidx : (((i : Int) + 2) - 2).toNat = i := by omega
    rw [update_gsheet_row, hidx]
    exact List.getElem?_set_ne (by omega)

/-- C7 (witness): two rows differing only in amount (5 and 7): the scan for
amount 7 selects the second row (sheet index 3), whose amount is 7, and an
update at data index 1 leaves row 0 unchanged. -/
theorem row_matching_first_exact_match_witness :
    (row_index_in_gsheet "a" "2025-04-05" 7 ""
        [⟨"a", "2025-04-05", some 5, ""⟩, ⟨"a", "2025-04-05", some 7, ""⟩] =
      ((1 : Nat) : Int) + 2) ∧
    (∀ g, ([⟨"a", "2025-04-05", some 5, ""⟩,
        ⟨"a", "2025-04-05", some 7, ""⟩] : List SheetRow)[1]? = some g →
      g.amount ≠ some 5) ∧
    ((5 : ℚ) ≠ 7) := by
  have hscan : row_index_in_gsheet "a" "2025-04-05" 7 ""
      [⟨"a", "2025-04-05", some 5, ""⟩, ⟨"a", "2025-04-05", some 7, ""⟩] =
      ((1 : Nat) : Int) + 2 := by decide
  have h5 : (5 : ℚ) ≠ 7 := by norm_num
  exact ⟨hscan,
    (row_matching_first_exact_match "a" "2025-04-05" 7 ""
      [⟨"a", "2025-04-05", some 5, ""⟩, ⟨"a", "2025-04-05", some 7, ""⟩]).2.2.1
      1 5 h5 hscan, h5⟩

/-- C8 (counterexample): deleting debtor "Alice" also removes a row whose
payer cell is `" Alice"` (leading space), although that cell is not
byte-for-byte equal to the deleted name: the comparison normalizes the cell
first. -/
theorem delete_debtor_normalized_match_cex :
    delete_debtor_payments 0 "Alice" [[" Alice", "2025-04-05", "100", ""]] = [] ∧
    (" Alice" : String) ≠ "Alice" := by
  constructor
  · decide
  · decide

/-- C8 (amended): debtor deletion keeps exactly the payment rows whose
normalized payer cell differs from the deleted name (rows with no payer cell
are kept), and the kept rows are unchanged and in their original relative
order (the output is a sublist of the input). -/
theorem delete_debtor_payments_spec (payer_col_index : Nat)
    (debtor_to_delete : String) (rows : List (List String)) :
    (delete_debtor_payments payer_col_index debtor_to_delete rows).Sublist rows ∧
    (∀ row, row ∈ delete_debtor_payments payer_col_index debtor_to_delete rows ↔
      row ∈ rows ∧ keep_row payer_col_index debtor_to_delete row = true) ∧
    (∀ row, keep_row payer_col_index debtor_to_delete row = true ↔
      ∀ v, row[payer_col_index]? = some v →
        ¬ normalize_cell v = debtor_to_delete) := by
  refine ⟨List.filter_sublist _, ?_, ?_⟩
  · intro row
    simp [delete_debtor_payments, List.mem_filter]
  · intro row
    rcases h : row[payer_col_index]? with _ | v
    · simp [keep_row, h]
    · simp [keep_row, h, bne_iff_ne]

/-- C8 (witness): the amended theorem instantiated on a one-row table whose
payer is "Bob" while "Alice" is deleted. -/
theorem delete_debtor_payments_spec_witness :
    ((["Bob"] : List String) ∈ delete_debtor_payments 0 "Alice" [["Bob"]] ↔
      (["Bob"] : List String) ∈ [["Bob"]] ∧ keep_row 0 "Alice" ["Bob"] = true) ∧
    (keep_row 0 "Alice" ["Bob"] = true ↔
      ∀ v, (["Bob"] : List String)[0]? = some v →
        ¬ normalize_cell v = "Alice") :=
  ⟨(delete_debtor_payments_spec 0 "Alice" [["Bob"]]).2.1 ["Bob"],
   (delete_debtor_payments_spec 0 "Alice" [["Bob"]]).2.2 ["Bob"]⟩

end DebtApp
